import Mathlib

set_option linter.unusedVariables false

/-!
Shallow embedding of `src/device.py` (Pololu Micro Maestro servo-controller
driver) and verification of the specification's claims about it.

Modelling conventions:

* Python integers become `Nat` (all protocol values in the source are
  non-negative).
* A byte written to the serial port goes through Python 2's `chr`, which
  raises `ValueError` for arguments outside `[0, 255]`; this is modelled by
  `Device.chrAll`, which stops (returning `PyResult.exn`) at the first
  out-of-range value, keeping the bytes already written before the failure.
* Unhandled Python exceptions (`ValueError` from `chr`, `IndexError` from
  list indexing) are modelled by `PyResult.exn`.
* `self.ser.read(n)` is modelled by `Device.read`: the serial input is a
  list of successive read results (each entry the bytes the transport
  yields for one `read` call, truncated to the requested count); an
  exhausted list models a timeout, for which pyserial returns the empty
  byte string.
* `log(...)` (a `print` wrapper) is modelled by recording the first
  argument string in the effect trace; `time.sleep(0.1)` is recorded as a
  sleep of 100 milliseconds; `self.ser.flush()` has no observable effect in
  this model and is not recorded.
-/

/-- Outcome of running a piece of Python code: a normal value, or an
unhandled exception (`ValueError`/`IndexError` in the fragments modelled
here). -/
inductive PyResult (α : Type) where
  | ok (a : α) : PyResult α
  | exn : PyResult α
deriving Repr, DecidableEq

/-- Observable side effects of one driver call: the bytes written to the
TTL serial port, the sizes of the issued `read` requests, the logged
messages, and the sleeps (in milliseconds). -/
structure Effects where
  writes : List Nat := []
  reads : List Nat := []
  logs : List String := []
  sleeps : List Nat := []
deriving Repr, DecidableEq

/-- Concatenation of two effect traces, kind by kind. -/
def Effects.app (a b : Effects) : Effects :=
  { writes := a.writes ++ b.writes
    reads := a.reads ++ b.reads
    logs := a.logs ++ b.logs
    sleeps := a.sleeps ++ b.sleeps }

/-- The state of a `Device` object that the modelled methods depend on:
the `isInitialized` flag set by the constructor, whether
`self.ser.writable()` holds, and the pending serial input (successive
results of `self.ser.read`). -/
structure Device where
  isInitialized : Bool
  writable : Bool
  responses : List (List Nat)
deriving Repr, DecidableEq

namespace Device

/-- Effect trace of the `if not self.isInitialized: log("Not initialized"); return`
guard that starts every method of the class. -/
def notInitEffects : Effects := { logs := ["Not initialized"] }

/-- The 14-bit value codec of the driver, as the source computes it in
`set_target` (device.py lines 141-142) and identically in `set_targets`,
`set_speed`, `set_speeds` and `set_acceleration`:
`highbits, lowbits = divmod(value, 32)` and the wire pair is
`(lowbits << 2, highbits)`.  (`encode14` is the specification's name for
this codec.) -/
def encode14 (value : Nat) : Nat × Nat :=
  ((value % 32) <<< 2, value / 32)

/-- The decoder the specification defines for the 14-bit codec: the high
part is wire byte 2, the low part is wire byte 1 shifted right by 2, and
the value is reassembled the way `divmod(value, 32)` split it
(`high * 32 + low`). -/
def decode14 (byte1 byte2 : Nat) : Nat :=
  byte2 * 32 + (byte1 >>> 2)

/-- Little-endian response decode used by `get_position`, `get_positions`
and `get_errors` (device.py lines 272, 283 and 326):
`ord(data[0]) + (ord(data[1]) << 8)`. -/
def decode_le16 (byte_low byte_high : Nat) : Nat :=
  byte_low + (byte_high <<< 8)

/-- Position decode of `get_position`/`get_positions` (device.py lines 272
and 283): the little-endian value integer-divided by 4 (Python 2 `/` on
ints is floor division). -/
def decode_position (byte_low byte_high : Nat) : Nat :=
  decode_le16 byte_low byte_high / 4

/-- The flattened argument bytes `set_target` passes to `self.write`
(device.py lines 141-142): `0x84, servo, lowbits << 2, highbits` with
`highbits, lowbits = divmod(value, 32)`. -/
def set_target_data (servo value : Nat) : List Nat :=
  [0x84, servo, (value % 32) <<< 2, value / 32]

/-- The flattened argument bytes `set_speed` passes to `self.write`
(device.py lines 190-191). -/
def set_speed_data (servo speed : Nat) : List Nat :=
  [0x87, servo, (speed % 32) <<< 2, speed / 32]

/-- The flattened argument bytes `set_acceleration` passes to `self.write`
(device.py lines 226-227). -/
def set_acceleration_data (servo acceleration : Nat) : List Nat :=
  [0x89, servo, (acceleration % 32) <<< 2, acceleration / 32]

/-- The `result` list built by the loop of `set_targets` (device.py lines
159-163): for each value, `lowbits << 2` then `highbits`, in the order the
values appear. -/
def targets_payload : List Nat → List Nat
  | [] => []
  | v :: vs => (v % 32) <<< 2 :: v / 32 :: targets_payload vs

/-- The `start_channel` argument of `set_targets` may be a plain channel
number or a Python list of channel numbers (device.py lines 165-166). -/
inductive StartChannel where
  | ch (c : Nat) : StartChannel
  | chList (cs : List Nat) : StartChannel
deriving Repr, DecidableEq

/-- Python's `min` on a list of ints; `min([])` raises `ValueError`,
modelled as `none`. -/
def pymin : List Nat → Option Nat
  | [] => none
  | c :: cs => some (cs.foldl Nat.min c)

/-- Resolution of `set_targets`'s `start_channel` argument (device.py
lines 165-166): a list is replaced by its minimum, a plain number is kept. -/
def StartChannel.resolve : StartChannel → Option Nat
  | .ch c => some c
  | .chList cs => pymin cs

/-- The flattened argument bytes `set_targets` passes to `self.write`
(device.py lines 157-168): `0x9F, num_targets, start_channel, result`.
`none` models the unhandled exceptions of that code path: `values[k]`
raises `IndexError` when `num_targets` exceeds `len(values)`, and
`min(start_channel)` raises `ValueError` on an empty list. -/
def set_targets_data (num_targets : Nat) (start : StartChannel)
    (values : List Nat) : Option (List Nat) :=
  if num_targets ≤ values.length then
    match start.resolve with
    | some sc =>
        some (0x9F :: num_targets :: sc :: targets_payload (values.take num_targets))
    | none => none
  else none

/-- Whether a list of Nats is a valid prefix for bit 7 being clear on each
entry: `true` iff no listed byte has its high (framing) bit set. -/
def bit7Clear (bs : List Nat) : Bool :=
  bs.all (fun b => !(b.testBit 7))

/-- An argument to `Device.write`: the source passes either plain ints or
a Python list of ints (device.py lines 109-115). -/
inductive WItem where
  | byte (b : Nat) : WItem
  | ofList (bs : List Nat) : WItem
deriving Repr, DecidableEq

/-- Flattening of `write`'s `*data` arguments into the byte stream the
loop of device.py lines 109-115 walks. -/
def WItem.flatten : List WItem → List Nat
  | [] => []
  | .byte b :: rest => b :: WItem.flatten rest
  | .ofList bs :: rest => bs ++ WItem.flatten rest

/-- The per-byte `self.ser.write(chr(d))` loop: each value below 256 is
written; the first value outside `chr`'s range raises `ValueError`,
keeping the bytes written before it. -/
def chrAll : List Nat → List Nat × PyResult Unit
  | [] => ([], .ok ())
  | b :: bs =>
    if b < 256 then
      let r := chrAll bs
      (b :: r.1, r.2)
    else ([], .exn)

/-- `Device.write` (device.py lines 104-117): guarded by `isInitialized`
and `self.ser.writable()`; flattens list arguments and writes each byte
through `chr`. -/
def write (d : Device) (data : List WItem) : Effects × PyResult Unit :=
  if d.isInitialized then
    if d.writable then
      let (ws, r) := chrAll (WItem.flatten data)
      ({ writes := ws }, r)
    else ({ logs := ["Device not writable"] }, .ok ())
  else (notInitEffects, .ok ())

/-- `self.ser.read(n)`: pops the next pending response, truncated to the
requested count; exhausted input models pyserial's timeout result (the
empty byte string). -/
def read (rs : List (List Nat)) (n : Nat) : List Nat × List (List Nat) :=
  match rs with
  | [] => ([], [])
  | r :: rest => (r.take n, rest)

/-- `Device.go_home` (device.py lines 127-129). -/
def go_home (d : Device) : Effects × List (List Nat) × PyResult Unit :=
  if d.isInitialized then
    let (e, r) := d.write [.byte 0xA2]
    (e, d.responses, r)
  else (notInitEffects, d.responses, .ok ())

/-- Effect trace of one `get_moving_state` poll on an initialized device:
`self.write(0x93)` (a log instead of a write when the port is not
writable) followed by `self.ser.read(1)`. -/
def gms_effects (writable : Bool) : Effects :=
  if writable then { writes := [0x93], reads := [1] }
  else { logs := ["Device not writable"], reads := [1] }

/-- `Device.get_moving_state` (device.py lines 299-306): writes 0x93,
reads one byte, returns `ord(data[0])` or `None` on an empty read. -/
def get_moving_state (d : Device) : Effects × List (List Nat) × PyResult (Option Nat) :=
  if d.isInitialized then
    let (e, r) := d.write [.byte 0x93]
    match r with
    | .exn => (e, d.responses, .exn)
    | .ok _ =>
      let (data, rs2) := read d.responses 1
      match data with
      | [] => (e.app { reads := [1] }, rs2, .ok none)
      | b :: _ => (e.app { reads := [1] }, rs2, .ok (some b))
  else (notInitEffects, d.responses, .ok none)

/-- Whether a read result keeps the `while (self.get_moving_state())`
loop of `wait_until_at_target` going: true iff the poll yields a byte and
that byte is nonzero (an empty read yields `None`, which is falsy). -/
def movingResp : List Nat → Bool
  | [] => false
  | b :: _ => b != 0

/-- The loop body of `wait_until_at_target` (device.py lines 332-334) on
an initialized device, as recursion on the pending serial input: each
iteration polls `get_moving_state` (write 0x93, read 1); a nonzero first
byte sleeps 100 ms and continues, while an empty read (timeout/`None`) or
a zero byte ends the loop. -/
def wait_go (writable : Bool) : List (List Nat) → Effects × List (List Nat)
  | [] => (gms_effects writable, [])
  | r :: rest =>
    match r.head? with
    | none => (gms_effects writable, rest)
    | some 0 => (gms_effects writable, rest)
    | some (_ + 1) =>
      let (e2, rs2) := wait_go writable rest
      ((gms_effects writable).app (Effects.app { sleeps := [100] } e2), rs2)

/-- `Device.wait_until_at_target` (device.py lines 332-334). When the
device is not initialized the single `get_moving_state` call logs and
returns `None`, ending the loop at once. -/
def wait_until_at_target (d : Device) : Effects × List (List Nat) :=
  if d.isInitialized then wait_go d.writable d.responses
  else (notInitEffects, d.responses)

/-- `Device.set_target` (device.py lines 139-144): the guard, the write of
`0x84, servo, lowbits << 2, highbits`, then `wait_until_at_target` when
`wait` is set (skipped if the write raised). -/
def set_target (d : Device) (servo value : Nat) (wait : Bool) :
    Effects × List (List Nat) × PyResult Unit :=
  if d.isInitialized then
    let (e, r) := d.write
      [.byte 0x84, .byte servo, .byte ((value % 32) <<< 2), .byte (value / 32)]
    match r with
    | .exn => (e, d.responses, .exn)
    | .ok _ =>
      if wait then
        let (e2, rs2) := wait_until_at_target d
        (e.app e2, rs2, .ok ())
      else (e, d.responses, .ok ())
  else (notInitEffects, d.responses, .ok ())

/-- `Device.set_targets` (device.py lines 157-170): builds the payload and
start channel (`set_targets_data`, whose `none` models the unhandled
`IndexError`/`ValueError` of those lines), writes
`0x9F, num_targets, start_channel, result`, then waits like `set_target`. -/
def set_targets (d : Device) (num_targets : Nat) (start : StartChannel)
    (values : List Nat) (wait : Bool) : Effects × List (List Nat) × PyResult Unit :=
  if d.isInitialized then
    match set_targets_data num_targets start values with
    | none => ({}, d.responses, .exn)
    | some bytes =>
      let (e, r) := d.write [.ofList bytes]
      match r with
      | .exn => (e, d.responses, .exn)
      | .ok _ =>
        if wait then
          let (e2, rs2) := wait_until_at_target d
          (e.app e2, rs2, .ok ())
        else (e, d.responses, .ok ())
  else (notInitEffects, d.responses, .ok ())

/-- `Device.set_speed` (device.py lines 188-191). -/
def set_speed (d : Device) (servo speed : Nat) :
    Effects × List (List Nat) × PyResult Unit :=
  if d.isInitialized then
    let (e, r) := d.write
      [.byte 0x87, .byte servo, .byte ((speed % 32) <<< 2), .byte (speed / 32)]
    (e, d.responses, r)
  else (notInitEffects, d.responses, .ok ())

/-- `Device.set_acceleration` (device.py lines 224-227). -/
def set_acceleration (d : Device) (servo acceleration : Nat) :
    Effects × List (List Nat) × PyResult Unit :=
  if d.isInitialized then
    let (e, r) := d.write
      [.byte 0x89, .byte servo, .byte ((acceleration % 32) <<< 2),
       .byte (acceleration / 32)]
    (e, d.responses, r)
  else (notInitEffects, d.responses, .ok ())

/-- The `speeds` argument of `set_speeds`: the source inspects its Python
type — a list, an int, or anything else (device.py lines 197, 202, 206). -/
inductive Speeds where
  | ofList (l : List Nat) : Speeds
  | ofInt (n : Nat) : Speeds
  | other : Speeds
deriving Repr, DecidableEq

/-- The `for s in servos` loop of `set_speeds` (device.py lines 195-207):
for a list, `speeds[index]` raises `IndexError` once `index` reaches the
list's length (after the writes for the earlier channels); for an int the
same speed is written for every channel; any other type logs and returns. -/
def set_speeds_go (d : Device) (speeds : Speeds) (index : Nat) :
    List Nat → Effects × PyResult Unit
  | [] => ({}, .ok ())
  | s :: ss =>
    match speeds with
    | .ofList l =>
      match l.get? index with
      | none => ({}, .exn)
      | some v =>
        let (e, r) := d.write
          [.byte 0x87, .byte s, .byte ((v % 32) <<< 2), .byte (v / 32)]
        match r with
        | .exn => (e, .exn)
        | .ok _ =>
          let (e2, r2) := set_speeds_go d speeds (index + 1) ss
          (e.app e2, r2)
    | .ofInt v =>
      let (e, r) := d.write
        [.byte 0x87, .byte s, .byte ((v % 32) <<< 2), .byte (v / 32)]
      match r with
      | .exn => (e, .exn)
      | .ok _ =>
        let (e2, r2) := set_speeds_go d speeds index ss
        (e.app e2, r2)
    | .other => ({ logs := ["Set Speed: <Type> Error"] }, .ok ())

/-- `Device.set_speeds` (device.py lines 193-207). -/
def set_speeds (d : Device) (servos : List Nat) (speeds : Speeds) :
    Effects × List (List Nat) × PyResult Unit :=
  if d.isInitialized then
    let (e, r) := set_speeds_go d speeds 0 servos
    (e, d.responses, r)
  else (notInitEffects, d.responses, .ok ())

/-- `Device.get_position` (device.py lines 267-274): writes `0x90, servo`,
reads 2 bytes; an empty read returns `None`, while the nonempty branch
evaluates `ord(data[0]) + (ord(data[1]) << 8)` — so a one-byte read
raises `IndexError` on `data[1]`. -/
def get_position (d : Device) (servo : Nat) :
    Effects × List (List Nat) × PyResult (Option Nat) :=
  if d.isInitialized then
    let (e, r) := d.write [.byte 0x90, .byte servo]
    match r with
    | .exn => (e, d.responses, .exn)
    | .ok _ =>
      let (data, rs2) := read d.responses 2
      match data with
      | [] => (e.app { reads := [2] }, rs2, .ok none)
      | [_] => (e.app { reads := [2] }, rs2, .exn)
      | b0 :: b1 :: _ => (e.app { reads := [2] }, rs2, .ok (some (decode_position b0 b1)))
  else (notInitEffects, d.responses, .ok none)

/-- The `for s in servos` loop of `get_positions` (device.py lines
279-286): one query and one 2-byte read per channel; an empty read
appends `None`, a one-byte read raises `IndexError`. -/
def get_positions_go (d : Device) :
    List Nat → List (List Nat) → Effects × List (List Nat) × PyResult (List (Option Nat))
  | [], rs => ({}, rs, .ok [])
  | s :: ss, rs =>
    let (e, r) := d.write [.byte 0x90, .byte s]
    match r with
    | .exn => (e, rs, .exn)
    | .ok _ =>
      let (data, rs2) := read rs 2
      match data with
      | [] =>
        let (e2, rs3, r2) := get_positions_go d ss rs2
        match r2 with
        | .exn => ((e.app { reads := [2] }).app e2, rs3, .exn)
        | .ok l => ((e.app { reads := [2] }).app e2, rs3, .ok (none :: l))
      | [_] => (e.app { reads := [2] }, rs2, .exn)
      | b0 :: b1 :: _ =>
        let (e2, rs3, r2) := get_positions_go d ss rs2
        match r2 with
        | .exn => ((e.app { reads := [2] }).app e2, rs3, .exn)
        | .ok l =>
          ((e.app { reads := [2] }).app e2, rs3,
           .ok (some (decode_position b0 b1) :: l))

/-- `Device.get_positions` (device.py lines 276-287). -/
def get_positions (d : Device) (servos : List Nat) :
    Effects × List (List Nat) × PyResult (Option (List (Option Nat))) :=
  if d.isInitialized then
    let (e, rs2, r) := get_positions_go d servos d.responses
    (e, rs2,
     match r with
     | .ok l => .ok (some l)
     | .exn => .exn)
  else (notInitEffects, d.responses, .ok none)

/-- `Device.get_errors` (device.py lines 321-328): like `get_position`
but with opcode 0xA1 and no division by 4. -/
def get_errors (d : Device) : Effects × List (List Nat) × PyResult (Option Nat) :=
  if d.isInitialized then
    let (e, r) := d.write [.byte 0xA1]
    match r with
    | .exn => (e, d.responses, .exn)
    | .ok _ =>
      let (data, rs2) := read d.responses 2
      match data with
      | [] => (e.app { reads := [2] }, rs2, .ok none)
      | [_] => (e.app { reads := [2] }, rs2, .exn)
      | b0 :: b1 :: _ => (e.app { reads := [2] }, rs2, .ok (some (decode_le16 b0 b1)))
  else (notInitEffects, d.responses, .ok none)

/-- The per-channel 4-byte speed commands `set_speeds` issues for a list
of (channel, speed) pairs, in order. -/
def speedCmds : List (Nat × Nat) → List Nat
  | [] => []
  | (s, v) :: rest => 0x87 :: s :: (v % 32) <<< 2 :: v / 32 :: speedCmds rest

/-- Bool form of "the first k pending responses all keep the wait loop
going". -/
def movingPrefix (k : Nat) (rs : List (List Nat)) : Bool :=
  (List.range k).all (fun i => movingResp (rs.getD i []))

/-- Bool form of "m is a lower bound of the listed channels". -/
def lowerBoundOf (m : Nat) (cs : List Nat) : Bool :=
  cs.all (Nat.ble m)

end Device

theorem chrAll_ok (bs : List Nat) (h : ∀ b ∈ bs, b < 256) :
    Device.chrAll bs = (bs, .ok ()) := by
  induction bs with
  | nil => rfl
  | cons b bs ih =>
    have hb : b < 256 := h b (by simp)
    simp [Device.chrAll, hb, ih (fun x hx => h x (List.mem_cons_of_mem _ hx))]

theorem write_ready (d : Device) (data : List Device.WItem)
    (hi : d.isInitialized = true) (hw : d.writable = true)
    (h : ∀ b ∈ Device.WItem.flatten data, b < 256) :
    d.write data = ({ writes := Device.WItem.flatten data }, .ok ()) := by
  simp [Device.write, hi, hw, chrAll_ok _ h]

theorem testBit7_eq_false_of_lt (b : Nat) (h : b < 128) : b.testBit 7 = false := by
  have h2 : (2 : Nat) ^ 7 = 128 := by norm_num
  exact Nat.testBit_eq_false_of_lt (h2 ▸ h)

theorem bit7Clear_pair (a b : Nat) (ha : a < 128) (hb : b < 128) :
    Device.bit7Clear [a, b] = true := by
  simp [Device.bit7Clear, testBit7_eq_false_of_lt a ha, testBit7_eq_false_of_lt b hb]

theorem targets_payload_bit7 (vs : List Nat) (h : ∀ x ∈ vs, x ≤ 4095) :
    Device.bit7Clear (Device.targets_payload vs) = true := by
  induction vs with
  | nil => rfl
  | cons v vs ih =>
    have hv : v ≤ 4095 := h v (by simp)
    have hlow : (v % 32) <<< 2 < 128 := by
      have hsh : (v % 32) <<< 2 = (v % 32) * 4 := by rw [Nat.shiftLeft_eq]
      omega
    have hhigh : v / 32 < 128 := by omega
    simp only [Device.targets_payload, Device.bit7Clear, List.all_cons,
      Bool.and_eq_true]
    refine ⟨?_, ?_, ?_⟩
    · simp [testBit7_eq_false_of_lt _ hlow]
    · simp [testBit7_eq_false_of_lt _ hhigh]
    · exact ih (fun x hx => h x (List.mem_cons_of_mem _ hx))

theorem foldl_min_le (cs : List Nat) : ∀ c : Nat,
    cs.foldl Nat.min c ≤ c ∧ ∀ x ∈ cs, cs.foldl Nat.min c ≤ x := by
  induction cs with
  | nil => intro c; exact ⟨Nat.le_refl c, by simp⟩
  | cons y ys ih =>
    intro c
    have h := ih (Nat.min c y)
    refine ⟨le_trans h.1 (Nat.min_le_left c y), ?_⟩
    intro x hx
    rcases List.mem_cons.mp hx with h1 | h1
    · subst h1; exact le_trans h.1 (Nat.min_le_right c x)
    · exact h.2 x h1

theorem foldl_min_mem (cs : List Nat) : ∀ c : Nat,
    cs.foldl Nat.min c = c ∨ cs.foldl Nat.min c ∈ cs := by
  induction cs with
  | nil => intro c; exact Or.inl rfl
  | cons y ys ih =>
    intro c
    rcases ih (Nat.min c y) with h | h
    · have hmin : Nat.min c y = c ∨ Nat.min c y = y := by
        rcases Nat.le_total c y with h2 | h2
        · exact Or.inl (Nat.min_eq_left h2)
        · exact Or.inr (Nat.min_eq_right h2)
      rcases hmin with h2 | h2
      · exact Or.inl (by simp only [List.foldl]; rw [h, h2])
      · refine Or.inr ?_
        simp only [List.foldl]
        rw [h, h2]
        exact List.mem_cons_self y ys
    · refine Or.inr ?_
      simp only [List.foldl]
      exact List.mem_cons_of_mem _ h

theorem targets_payload_get? (vs : List Nat) : ∀ k : Nat, k < vs.length →
    (Device.targets_payload vs).get? (2 * k) = some ((vs.getD k 0 % 32) <<< 2) ∧
    (Device.targets_payload vs).get? (2 * k + 1) = some (vs.getD k 0 / 32) := by
  induction vs with
  | nil => intro k hk; simp at hk
  | cons v vs ih =>
    intro k hk
    match k with
    | 0 => simp [Device.targets_payload]
    | k + 1 =>
      have hk2 : k < vs.length := by simp at hk; omega
      have h := ih k hk2
      have e1 : 2 * (k + 1) = 2 * k + 1 + 1 := by ring
      rw [e1]
      simp only [Device.targets_payload, List.get?_cons_succ, List.getD_cons_succ]
      exact h

theorem movingPrefix_iff (k : Nat) (rs : List (List Nat)) :
    Device.movingPrefix k rs = true ↔
      ∀ i, i < k → Device.movingResp (rs.getD i []) = true := by
  simp [Device.movingPrefix, List.all_eq_true, List.mem_range]

theorem wait_go_spec : ∀ (k : Nat) (rs : List (List Nat)), k ≤ rs.length →
    (∀ i, i < k → Device.movingResp (rs.getD i []) = true) →
    Device.movingResp (rs.getD k []) = false →
    Device.wait_go true rs =
      ({ writes := List.replicate (k + 1) 0x93,
         reads := List.replicate (k + 1) 1,
         sleeps := List.replicate k 100, logs := [] }, rs.drop (k + 1)) := by
  intro k
  induction k with
  | zero =>
    intro rs hk hmov hstop
    match rs with
    | [] => simp [Device.wait_go, Device.gms_effects, List.replicate]
    | r :: rest =>
      match r with
      | [] => simp [Device.wait_go, Device.gms_effects, List.replicate]
      | b :: t =>
        have hb : b = 0 := by simpa [Device.movingResp] using hstop
        subst hb
        simp [Device.wait_go, Device.gms_effects, List.replicate]
  | succ k ih =>
    intro rs hk hmov hstop
    match rs with
    | [] => simp at hk
    | r :: rest =>
      have hr : Device.movingResp r = true := by
        simpa using hmov 0 (Nat.succ_pos k)
      match r with
      | [] => simp [Device.movingResp] at hr
      | b :: t =>
        have hb : b ≠ 0 := by simpa [Device.movingResp] using hr
        obtain ⟨m, hm⟩ : ∃ m, b = m + 1 := ⟨b - 1, by omega⟩
        subst hm
        have hrest := ih rest (by simpa using hk)
          (fun i hi => by simpa using hmov (i + 1) (by omega))
          (by simpa using hstop)
        simp [Device.wait_go, hrest, Device.gms_effects, Effects.app,
          List.replicate]

theorem set_speeds_go_short (rs : List (List Nat)) (speeds : List Nat) :
    ∀ (servos : List Nat) (i : Nat), i ≤ speeds.length →
      speeds.length < i + servos.length →
      (∀ s ∈ servos, s < 256) → (∀ v ∈ speeds, v < 8192) →
      Device.set_speeds_go ⟨true, true, rs⟩ (.ofList speeds) i servos =
        ({ writes := Device.speedCmds (servos.zip (speeds.drop i)) }, .exn) := by
  intro servos
  induction servos with
  | nil => intro i h1 h2 h3 h4; simp at h2; omega
  | cons s ss ih =>
    intro i h1 h2 h3 h4
    by_cases hi : i < speeds.length
    · have hv : speeds.get? i = some speeds[i] := by
        rw [List.get?_eq_getElem?, List.getElem?_eq_getElem hi]
      have hmem : speeds[i] ∈ speeds := List.getElem_mem hi
      have hv8192 : speeds[i] < 8192 := h4 _ hmem
      have hwd : Device.write ⟨true, true, rs⟩
          [.byte 0x87, .byte s, .byte ((speeds[i] % 32) <<< 2),
           .byte (speeds[i] / 32)] =
          ({ writes := [0x87, s, (speeds[i] % 32) <<< 2,
              speeds[i] / 32] }, .ok ()) := by
        refine write_ready _ _ rfl rfl ?_
        intro b hb
        have hsh : (speeds[i] % 32) <<< 2 = (speeds[i] % 32) * 4 := by
          rw [Nat.shiftLeft_eq]
        have hbs : s < 256 := h3 s (by simp)
        simp [Device.WItem.flatten] at hb
        rcases hb with h | h | h | h <;> omega
      have hrec := ih (i + 1) (by omega) (by simp at h2 ⊢; omega)
        (fun x hx => h3 x (List.mem_cons_of_mem _ hx)) h4
      have hdrop : speeds.drop i = speeds[i] :: speeds.drop (i + 1) :=
        List.drop_eq_getElem_cons hi
      simp only [Device.set_speeds_go, hv, hwd, hrec, hdrop, List.zip_cons_cons,
        Device.speedCmds, Effects.app]
      simp
    · have hieq : i = speeds.length := by omega
      subst hieq
      have hnone : speeds.get? speeds.length = none := List.get?_len_le (le_refl _)
      simp [Device.set_speeds_go, hnone, List.drop_length, Device.speedCmds]

/-- Claim C3: for every integer v in [0, 16383], decoding the two bytes
produced by the encoding in `set_target` with `decode14` (high from byte
2, low from byte 1 shifted right by 2) yields v again. -/
theorem decode14_encode14_roundtrip (value : Nat) (h : value ≤ 16383) :
    Device.decode14 (Device.encode14 value).1 (Device.encode14 value).2 = value := by
  simp only [Device.encode14, Device.decode14, Nat.shiftLeft_eq,
    Nat.shiftRight_eq_div_pow]
  omega

/-- Witness for C3 at the concrete value 1000. -/
theorem decode14_encode14_roundtrip_witness :
    1000 ≤ 16383 ∧
      Device.decode14 (Device.encode14 1000).1 (Device.encode14 1000).2 = 1000 :=
  ⟨by decide, decode14_encode14_roundtrip 1000 (by decide)⟩

/-- Claim C1 counterexample: at the in-range target value 1, the pair
`set_target` sends after the channel byte is (4, 0), not
(1 mod 128, 1 div 128) = (1, 0) as claimed. -/
theorem set_target_encoding_ne_mod128_at_one :
    1 ≤ 16383 ∧ ¬ (Device.set_target_data 0 1 = [0x84, 0, 1 % 128, 1 / 128]) := by
  decide

/-- Claim C1 as amended: for every target value v in [0, 16383], the pair
sent after the channel byte is ((v mod 32) · 4, v div 32), which equals
((4·v) mod 128, (4·v) div 128) — the encoder places the bits of 4·v, not
of v, in the claimed layout. -/
theorem set_target_encoding_is_layout_of_four_times_value
    (servo value : Nat) (h : value ≤ 16383) :
    Device.set_target_data servo value =
      [0x84, servo, (4 * value) % 128, (4 * value) / 128] := by
  simp only [Device.set_target_data, Nat.shiftLeft_eq]
  refine List.ext_get (by simp) ?_
  intro n h1 h2
  match n with
  | 0 => rfl
  | 1 => rfl
  | 2 => simp only [List.get]; omega
  | 3 => simp only [List.get]; omega
  | n + 4 => simp at h1

/-- Witness for amended C1 at servo 2, target 1500. -/
theorem set_target_encoding_four_times_witness :
    1500 ≤ 16383 ∧
      Device.set_target_data 2 1500 =
        [0x84, 2, (4 * 1500) % 128, (4 * 1500) / 128] :=
  ⟨by decide, set_target_encoding_is_layout_of_four_times_value 2 1500 (by decide)⟩

/-- Claim C4 counterexample: `encode14 16383` is (0x7C, 0x1FF), not
(0x7C, 0x7F) as claimed — the high output is 511 and does not fit 7 bits. -/
theorem encode14_16383_ne_spec_pair :
    ¬ (Device.encode14 16383 = (0x7C, 0x7F)) := by
  decide

/-- Claim C4 as amended: `encode14 0 = (0x00, 0x00)`, and
`encode14 16383 = (0x7C, 0x1FF)`: the low byte is 0x7C as claimed but the
high output is 511 = 0x1FF, exceeding both 7 bits and a byte. -/
theorem encode14_boundary_values :
    Device.encode14 0 = (0x00, 0x00) ∧ Device.encode14 16383 = (0x7C, 0x1FF) := by
  decide

/-- Claim C2 counterexample: at target value 4096 (inside the declared
range [0, 16383]) the second data byte of `set_target`'s encoded field is
128, whose bit 7 is set. -/
theorem set_target_high_byte_bit7_set_at_4096 :
    4096 ≤ 16383 ∧
      Device.bit7Clear ((Device.set_target_data 0 4096).drop 2) = false := by
  decide

/-- Claim C2 as amended: every byte of the encoded multi-byte numeric
field has bit 7 equal to 0 provided target and speed values stay in
[0, 4095] (for acceleration the declared range [0, 255] suffices); from
4096 on, the high byte of the divmod-by-32 split reaches 128 and the
invariant breaks. -/
theorem encoded_data_bytes_bit7_clear_in_range
    (servo v w : Nat) (vs : List Nat)
    (hv : v ≤ 4095) (hw : w ≤ 255) (hvs : ∀ x ∈ vs, x ≤ 4095) :
    Device.bit7Clear ((Device.set_target_data servo v).drop 2) = true ∧
    Device.bit7Clear ((Device.set_speed_data servo v).drop 2) = true ∧
    Device.bit7Clear ((Device.set_acceleration_data servo w).drop 2) = true ∧
    Device.bit7Clear (Device.targets_payload vs) = true := by
  have hvlow : (v % 32) <<< 2 < 128 := by
    have hsh : (v % 32) <<< 2 = (v % 32) * 4 := by rw [Nat.shiftLeft_eq]
    omega
  have hwlow : (w % 32) <<< 2 < 128 := by
    have hsh : (w % 32) <<< 2 = (w % 32) * 4 := by rw [Nat.shiftLeft_eq]
    omega
  refine ⟨?_, ?_, ?_, targets_payload_bit7 vs hvs⟩
  · exact bit7Clear_pair _ _ hvlow (by omega)
  · exact bit7Clear_pair _ _ hvlow (by omega)
  · exact bit7Clear_pair _ _ hwlow (by omega)

/-- Witness for amended C2 at servo 5, target/speed 1000, acceleration
200, batch values [1000, 2000]. -/
theorem encoded_data_bytes_bit7_witness :
    1000 ≤ 4095 ∧ 200 ≤ 255 ∧
      (Device.bit7Clear ((Device.set_target_data 5 1000).drop 2) = true ∧
       Device.bit7Clear ((Device.set_speed_data 5 1000).drop 2) = true ∧
       Device.bit7Clear ((Device.set_acceleration_data 5 200).drop 2) = true ∧
       Device.bit7Clear (Device.targets_payload [1000, 2000]) = true) :=
  ⟨by decide, by decide,
   encoded_data_bytes_bit7_clear_in_range 5 1000 200 [1000, 2000]
     (by decide) (by decide) (by decide)⟩

/-- Claim C5: the little-endian decode computes byte_low + (byte_high << 8)
and the position decode divides that by 4 (integer division); a ready
session's `get_position` and `get_errors` return exactly these decodes of
a 2-byte response, and `decode_le16 0x07 0x0A = 2567`,
`decode_position 0x07 0x0A = 641`. -/
theorem decode_le16_position_decode_spec
    (b0 b1 servo : Nat) (rs : List (List Nat)) (hs : servo < 256) :
    (Device.get_position ⟨true, true, [b0, b1] :: rs⟩ servo).2.2 =
      .ok (some (Device.decode_position b0 b1)) ∧
    (Device.get_errors ⟨true, true, [b0, b1] :: rs⟩).2.2 =
      .ok (some (Device.decode_le16 b0 b1)) ∧
    Device.decode_le16 b0 b1 = b0 + (b1 <<< 8) ∧
    Device.decode_le16 0x07 0x0A = 2567 ∧
    Device.decode_position 0x07 0x0A = 641 := by
  have hw1 : Device.write ⟨true, true, [b0, b1] :: rs⟩ [.byte 0x90, .byte servo] =
      ({ writes := [0x90, servo] }, .ok ()) := by
    refine write_ready _ _ rfl rfl ?_
    intro b hb
    simp [Device.WItem.flatten] at hb
    omega
  have hw2 : Device.write ⟨true, true, [b0, b1] :: rs⟩ [.byte 0xA1] =
      ({ writes := [0xA1] }, .ok ()) := by
    refine write_ready _ _ rfl rfl ?_
    intro b hb
    simp [Device.WItem.flatten] at hb
    omega
  refine ⟨?_, ?_, rfl, by decide, by decide⟩
  · simp [Device.get_position, hw1, Device.read]
  · simp [Device.get_errors, hw2, Device.read]

/-- Witness for C5 at the response bytes (0x07, 0x0A) on servo 0. -/
theorem decode_le16_position_decode_witness :
    0 < 256 ∧
      ((Device.get_position ⟨true, true, [[0x07, 0x0A]]⟩ 0).2.2 =
        .ok (some (Device.decode_position 0x07 0x0A)) ∧
      (Device.get_errors ⟨true, true, [[0x07, 0x0A]]⟩).2.2 =
        .ok (some (Device.decode_le16 0x07 0x0A)) ∧
      Device.decode_le16 0x07 0x0A = 0x07 + (0x0A <<< 8) ∧
      Device.decode_le16 0x07 0x0A = 2567 ∧
      Device.decode_position 0x07 0x0A = 641) :=
  ⟨by decide, decode_le16_position_decode_spec 0x07 0x0A 0 [] (by decide)⟩

/-- Claim C7: in the Failed (not initialized) state, each of the ten
session operations performs zero transport writes and zero reads, logs
the "Not initialized" sentinel, and returns the not-initialized result
(`None` for queries) while leaving the pending input untouched. -/
theorem failed_session_ops_no_io
    (d : Device) (h : d.isInitialized = false)
    (servo value num : Nat) (wait : Bool) (start : Device.StartChannel)
    (values servos : List Nat) (sp : Device.Speeds) :
    Device.notInitEffects.writes = [] ∧ Device.notInitEffects.reads = [] ∧
    Device.notInitEffects.logs = ["Not initialized"] ∧
    d.go_home = (Device.notInitEffects, d.responses, .ok ()) ∧
    d.set_target servo value wait = (Device.notInitEffects, d.responses, .ok ()) ∧
    d.set_targets num start values wait = (Device.notInitEffects, d.responses, .ok ()) ∧
    d.set_speed servo value = (Device.notInitEffects, d.responses, .ok ()) ∧
    d.set_speeds servos sp = (Device.notInitEffects, d.responses, .ok ()) ∧
    d.set_acceleration servo value = (Device.notInitEffects, d.responses, .ok ()) ∧
    d.get_position servo = (Device.notInitEffects, d.responses, .ok none) ∧
    d.get_positions servos = (Device.notInitEffects, d.responses, .ok none) ∧
    d.get_moving_state = (Device.notInitEffects, d.responses, .ok none) ∧
    d.get_errors = (Device.notInitEffects, d.responses, .ok none) := by
  simp [Device.go_home, Device.set_target, Device.set_targets, Device.set_speed,
    Device.set_speeds, Device.set_acceleration, Device.get_position,
    Device.get_positions, Device.get_moving_state, Device.get_errors,
    Device.notInitEffects, h]

/-- Witness for C7 on a concrete Failed session with pending input. -/
theorem failed_session_ops_no_io_witness :
    Device.notInitEffects.writes = [] ∧ Device.notInitEffects.reads = [] ∧
    Device.notInitEffects.logs = ["Not initialized"] ∧
    Device.go_home ⟨false, true, [[1], [2]]⟩ =
      (Device.notInitEffects, [[1], [2]], .ok ()) ∧
    Device.set_target ⟨false, true, [[1], [2]]⟩ 0 1500 true =
      (Device.notInitEffects, [[1], [2]], .ok ()) ∧
    Device.set_targets ⟨false, true, [[1], [2]]⟩ 2 (.ch 0) [10] true =
      (Device.notInitEffects, [[1], [2]], .ok ()) ∧
    Device.set_speed ⟨false, true, [[1], [2]]⟩ 0 1500 =
      (Device.notInitEffects, [[1], [2]], .ok ()) ∧
    Device.set_speeds ⟨false, true, [[1], [2]]⟩ [0, 1] (.ofInt 50) =
      (Device.notInitEffects, [[1], [2]], .ok ()) ∧
    Device.set_acceleration ⟨false, true, [[1], [2]]⟩ 0 1500 =
      (Device.notInitEffects, [[1], [2]], .ok ()) ∧
    Device.get_position ⟨false, true, [[1], [2]]⟩ 0 =
      (Device.notInitEffects, [[1], [2]], .ok none) ∧
    Device.get_positions ⟨false, true, [[1], [2]]⟩ [0, 1] =
      (Device.notInitEffects, [[1], [2]], .ok none) ∧
    Device.get_moving_state ⟨false, true, [[1], [2]]⟩ =
      (Device.notInitEffects, [[1], [2]], .ok none) ∧
    Device.get_errors ⟨false, true, [[1], [2]]⟩ =
      (Device.notInitEffects, [[1], [2]], .ok none) :=
  failed_session_ops_no_io ⟨false, true, [[1], [2]]⟩ rfl 0 1500 2 true (.ch 0)
    [10] [0, 1] (.ofInt 50)

/-- Claim C8 (code bug): on a ready session whose transport read returns
exactly one byte, `get_position` enters the decode branch (guarded only by
`if data:`) and raises `IndexError` on `data[1]` instead of returning the
missing-value result — the decode branch is reached whenever at least one
byte was read, not only on two. -/
theorem get_position_one_byte_read_raises :
    Device.get_position ⟨true, true, [[0x07]]⟩ 0 =
      ({ writes := [0x90, 0], reads := [2] }, [], .exn) := by
  decide

/-- Claim C6 counterexample: for channels [3,1,2] with targets
[30,10,20] (t3=30, t1=10, t2=20), the encoded command carries
start_channel = 1 but the target byte pairs in input order (30,10,20 →
120,0,40,0,80,0), not in ascending channel order (10,20,30 →
40,0,80,0,120,0) as the claim requires. -/
theorem set_targets_not_ascending_cex :
    Device.set_targets_data 3 (.chList [3, 1, 2]) [30, 10, 20] =
      some [0x9F, 3, 1, 120, 0, 40, 0, 80, 0] ∧
    ¬ (Device.set_targets_data 3 (.chList [3, 1, 2]) [30, 10, 20] =
        some [0x9F, 3, 1, 40, 0, 80, 0, 120, 0]) := by
  decide

/-- Claim C6 as amended: when the channel argument is a list, the encoded
command carries start_channel equal to the minimum of that list (a member
of the list that bounds every listed channel from below), but the target
byte pairs appear in the order the values sequence was passed — the code
performs no reordering by channel, so the k-th pair is the encoding of
values[k]. -/
theorem set_targets_min_start_and_input_order
    (c0 : Nat) (cs vs : List Nat) (k : Nat) (hk : k < vs.length) :
    Device.set_targets_data vs.length (.chList (c0 :: cs)) vs =
      some (0x9F :: vs.length :: cs.foldl Nat.min c0 ::
        Device.targets_payload vs) ∧
    cs.foldl Nat.min c0 ∈ c0 :: cs ∧
    Device.lowerBoundOf (cs.foldl Nat.min c0) (c0 :: cs) = true ∧
    (Device.targets_payload vs).get? (2 * k) = some ((vs.getD k 0 % 32) <<< 2) ∧
    (Device.targets_payload vs).get? (2 * k + 1) = some (vs.getD k 0 / 32) := by
  refine ⟨?_, ?_, ?_, (targets_payload_get? vs k hk).1,
    (targets_payload_get? vs k hk).2⟩
  · simp [Device.set_targets_data, Device.StartChannel.resolve, Device.pymin,
      List.take_length]
  · rcases foldl_min_mem cs c0 with h | h
    · rw [h]; exact List.mem_cons_self _ _
    · exact List.mem_cons_of_mem _ h
  · simp only [Device.lowerBoundOf, List.all_eq_true]
    intro x hx
    rw [Nat.ble_eq]
    rcases List.mem_cons.mp hx with h | h
    · rw [h]; exact (foldl_min_le cs c0).1
    · exact (foldl_min_le cs c0).2 x h

/-- Witness for amended C6 with channels [3,1,2], values [30,10,20], at
pair index 1. -/
theorem set_targets_min_start_witness :
    1 < 3 ∧
      (Device.set_targets_data 3 (.chList [3, 1, 2]) [30, 10, 20] =
        some (0x9F :: 3 :: 1 :: Device.targets_payload [30, 10, 20]) ∧
      (1 : Nat) ∈ [3, 1, 2] ∧
      Device.lowerBoundOf 1 [3, 1, 2] = true ∧
      (Device.targets_payload [30, 10, 20]).get? 2 = some ((10 % 32) <<< 2) ∧
      (Device.targets_payload [30, 10, 20]).get? 3 = some (10 / 32)) :=
  ⟨by decide,
   set_targets_min_start_and_input_order 3 [1, 2] [30, 10, 20] 1 (by decide)⟩

/-- Claim C9 counterexample: a ready session given 3 channels and 2
speeds performs the two full 4-byte per-channel writes for the first two
channels before the unhandled `IndexError` — the write trace is not
empty, and the failure is an exception, not a reported
argument-mismatch error. -/
theorem set_speeds_mismatch_writes_cex :
    Device.set_speeds ⟨true, true, []⟩ [0, 1, 2] (.ofList [100, 200]) =
      ({ writes := [0x87, 0, 16, 3, 0x87, 1, 32, 6] }, [], .exn) ∧
    ¬ ((Device.set_speeds ⟨true, true, []⟩ [0, 1, 2]
        (.ofList [100, 200])).1.writes = []) := by
  decide

/-- Claim C9 as amended: a batch speed call whose speed list is shorter
than its channel list performs one complete 4-byte write per available
speed (a partial send) and then raises an unhandled `IndexError`; the
length mismatch is neither validated up front nor reported. -/
theorem set_speeds_short_list_partial_send
    (servos speeds : List Nat) (rs : List (List Nat))
    (hlen : speeds.length < servos.length)
    (hs : ∀ s ∈ servos, s < 256) (hv : ∀ v ∈ speeds, v < 8192) :
    Device.set_speeds ⟨true, true, rs⟩ servos (.ofList speeds) =
      ({ writes := Device.speedCmds (servos.zip speeds) }, rs, .exn) := by
  have h := set_speeds_go_short rs speeds servos 0 (Nat.zero_le _)
    (by omega) hs hv
  rw [List.drop_zero] at h
  simp [Device.set_speeds, h]

/-- Witness for amended C9 with channels [0,1,2] and speeds [100,200]. -/
theorem set_speeds_short_list_witness :
    ([100, 200] : List Nat).length < ([0, 1, 2] : List Nat).length ∧
      Device.set_speeds ⟨true, true, [[5]]⟩ [0, 1, 2] (.ofList [100, 200]) =
        ({ writes := Device.speedCmds ([0, 1, 2].zip [100, 200]) }, [[5]], .exn) :=
  ⟨by decide,
   set_speeds_short_list_partial_send [0, 1, 2] [100, 200] [[5]]
     (by decide) (by decide) (by decide)⟩

/-- Claim C10: on a ready session, `set_target` with wait sends the
4-byte command and then polls `get_moving_state` (write 0x93, read 1)
once per pending "moving" response plus one final poll, sleeping 100 ms
after each moving poll and none after the final one; the loop stops at
the first poll whose response is not moving — a zero byte or a failed
(empty/timed-out) read, the latter covering the exhausted-input case — so
a single failed read ends the wait. -/
theorem set_target_wait_polls_until_stopped
    (servo value k : Nat) (rs : List (List Nat))
    (hserv : servo < 256) (hval : value < 8192)
    (hk : k ≤ rs.length)
    (hmov : Device.movingPrefix k rs = true)
    (hstop : Device.movingResp (rs.getD k []) = false) :
    Device.set_target ⟨true, true, rs⟩ servo value true =
      ({ writes := 0x84 :: servo :: (value % 32) <<< 2 :: value / 32 ::
           List.replicate (k + 1) 0x93,
         reads := List.replicate (k + 1) 1,
         sleeps := List.replicate k 100,
         logs := [] },
       rs.drop (k + 1), .ok ()) := by
  have hwd : Device.write ⟨true, true, rs⟩
      [.byte 0x84, .byte servo, .byte ((value % 32) <<< 2),
       .byte (value / 32)] =
      ({ writes := [0x84, servo, (value % 32) <<< 2, value / 32] },
        .ok ()) := by
    refine write_ready _ _ rfl rfl ?_
    intro b hb
    have hsh : (value % 32) <<< 2 = (value % 32) * 4 := by rw [Nat.shiftLeft_eq]
    simp [Device.WItem.flatten] at hb
    rcases hb with h | h | h | h <;> omega
  have hwait := wait_go_spec k rs hk ((movingPrefix_iff k rs).mp hmov) hstop
  simp [Device.set_target, hwd, Device.wait_until_at_target, hwait,
    Effects.app]

/-- Witness for C10: servo 2, target 1500, two moving polls then a
stopped poll, with one pending response left over. -/
theorem set_target_wait_polls_witness :
    2 < 256 ∧ 1500 < 8192 ∧
      2 ≤ ([[1], [1], [0], [9]] : List (List Nat)).length ∧
      Device.movingPrefix 2 [[1], [1], [0], [9]] = true ∧
      Device.movingResp ([[1], [1], [0], [9]].getD 2 []) = false ∧
      Device.set_target ⟨true, true, [[1], [1], [0], [9]]⟩ 2 1500 true =
        ({ writes := 0x84 :: 2 :: (1500 % 32) <<< 2 :: 1500 / 32 ::
             List.replicate 3 0x93,
           reads := List.replicate 3 1,
           sleeps := List.replicate 2 100,
           logs := [] },
         [[9]], .ok ()) :=
  ⟨by decide, by decide, by decide, by decide, by decide,
   set_target_wait_polls_until_stopped 2 1500 2 [[1], [1], [0], [9]]
     (by decide) (by decide) (by decide) (by decide) (by decide)⟩
